import Mathlib

/-!
Verification of the TubeShare front-end (yt-share repository).

Shallow embedding of the three source files:
- `src/components/auth/AuthProvider.tsx` (auth state holder: mount check,
  `login`, `logout`);
- `src/app/(app)/dashboard/page.tsx` (`useDebounce`, `fetchChannels`,
  `handleSelectChannel`, `handleRemoveChannel`, thumbnail rendering).

Network effects are made explicit: each operation that performs a `fetch`
takes the outcome of that fetch as an argument (the environment's choice),
and returns the updated component state together with the number of network
requests it issued.  JavaScript peculiarities that matter are modelled
faithfully: `fetch` resolves on non-2xx statuses (only transport failures
reject), `response.ok` means status in [200, 300), `response.json()` can
reject inside the same `try` block, and `String.prototype.replace` with a
string pattern replaces only the first occurrence.
-/

/-- The `Channel` interface of `dashboard/page.tsx`:
`{channelId, name, thumbnail, navigationEndpoint}`, all strings. -/
structure Channel where
  channelId : String
  name : String
  thumbnail : String
  navigationEndpoint : String
deriving DecidableEq, Repr

/-! ## Fetch outcomes

The environment decides what each `fetch` call does.  A `fetch` promise
rejects only on transport failure; any HTTP status resolves it. -/

/-- Outcome of the `fetch` in `fetchChannels`: either a transport failure
(the promise rejects), or a response with an HTTP status together with the
result of `response.json()` (`none` when the body fails to decode). -/
inductive SearchFetch where
  | networkError : SearchFetch
  | response (status : Nat) (decoded : Option (List Channel)) : SearchFetch
deriving DecidableEq, Repr

/-- Outcome of the `fetch` in `checkAuthStatus`: transport failure or a
response with an HTTP status (the body is never read). -/
inductive AuthFetch where
  | networkError : AuthFetch
  | response (status : Nat) : AuthFetch
deriving DecidableEq, Repr

/-- Outcome of the `fetch` in `logout`: the response is never inspected, so
all that matters is whether the promise resolved (any status) or rejected. -/
inductive LogoutFetch where
  | resolved (status : Nat) : LogoutFetch
  | networkError : LogoutFetch
deriving DecidableEq, Repr

/-- `response.ok` of the Fetch API: status in the range [200, 300). -/
def responseOk (status : Nat) : Bool :=
  decide (200 ≤ status) && decide (status < 300)

/-! ## Auth state holder (`AuthProvider.tsx`) -/

/-- State owned by `AuthProvider`: the `isAuthenticated` flag plus the log
of `router.push` targets issued so far (navigation is an effect; we record
each target in order). -/
structure AuthState where
  isAuthenticated : Bool
  navigations : List String
deriving DecidableEq, Repr

/-- `useState(false)`: the auth flag starts `false` at mount, before any
navigation has been issued. -/
def initialAuthState : AuthState :=
  { isAuthenticated := false, navigations := [] }

/-- `checkAuthStatus` of `AuthProvider.tsx`: one GET to `/authcheck`;
`response.ok` sets the flag `true`, any other status sets it `false`, and a
transport failure is caught (logged) and sets it `false`. -/
def checkAuthStatus (outcome : AuthFetch) (s : AuthState) : AuthState :=
  match outcome with
  | .response status =>
      if responseOk status then { s with isAuthenticated := true }
      else { s with isAuthenticated := false }
  | .networkError => { s with isAuthenticated := false }

/-- `login` of `AuthProvider.tsx`: unconditionally sets the flag and
navigates to `/dashboard`; no request is made. -/
def login (s : AuthState) : AuthState :=
  { s with isAuthenticated := true, navigations := s.navigations ++ ["/dashboard"] }

/-- `logout` of `AuthProvider.tsx`: `await fetch("/api/auth/logout")`, then
`setIsAuthenticated(false)` and `router.push("/")` — both inside the `try`
block.  When the fetch rejects, the `catch` only logs, so neither the state
change nor the navigation happens. -/
def logout (outcome : LogoutFetch) (s : AuthState) : AuthState :=
  match outcome with
  | .resolved _ =>
      { s with isAuthenticated := false, navigations := s.navigations ++ ["/"] }
  | .networkError => s

/-! ## Dashboard state and `fetchChannels` (`dashboard/page.tsx`) -/

/-- The `useState` fields of `YoutubeDashboard` that the search/selection
flow touches. -/
structure DashState where
  searchQuery : String
  searchResults : List Channel
  selectedChannels : List Channel
  listName : String
  isDropdownOpen : Bool
  isLoading : Bool
  error : Option String
deriving DecidableEq, Repr

/-- The initial dashboard state: every `useState` initializer of
`YoutubeDashboard`. -/
def initialDashState : DashState :=
  { searchQuery := ""
    searchResults := []
    selectedChannels := []
    listName := ""
    isDropdownOpen := false
    isLoading := false
    error := none }

/-- The fixed user-facing message set by the `catch` of `fetchChannels`. -/
def fetchErrorMsg : String := "Failed to fetch channels. Please try again."

/-- `fetchChannels(query)` of `dashboard/page.tsx`.  Returns the updated
state and the number of network requests issued.  Empty query (`!query`):
clear results, close dropdown, return without fetching.  Otherwise: set
loading, clear error, issue the GET; `!response.ok` throws, then
`response.json()` may throw; both land in the same `catch` (fixed error
message, results cleared) as a transport failure does; `finally` clears the
loading flag on every path. -/
def fetchChannels (query : String) (outcome : SearchFetch) (s : DashState) :
    DashState × Nat :=
  if query = "" then
    ({ s with searchResults := [], isDropdownOpen := false }, 0)
  else
    let s1 := { s with isLoading := true, error := none }
    match outcome with
    | .networkError =>
        ({ s1 with
            error := some fetchErrorMsg
            searchResults := []
            isLoading := false }, 1)
    | .response status decoded =>
        if responseOk status then
          match decoded with
          | some data =>
              ({ s1 with
                  searchResults := data
                  isDropdownOpen := true
                  isLoading := false }, 1)
          | none =>
              ({ s1 with
                  error := some fetchErrorMsg
                  searchResults := []
                  isLoading := false }, 1)
        else
          ({ s1 with
              error := some fetchErrorMsg
              searchResults := []
              isLoading := false }, 1)

/-- `handleSelectChannel(channel)`: append to `selectedChannels`, clear the
query text, close the dropdown. -/
def handleSelectChannel (channel : Channel) (s : DashState) : DashState :=
  { s with
      selectedChannels := s.selectedChannels ++ [channel]
      searchQuery := ""
      isDropdownOpen := false }

/-- `handleRemoveChannel(channelId)`: keep exactly the selected channels
whose id differs from the given one. -/
def handleRemoveChannel (channelId : String) (s : DashState) : DashState :=
  { s with
      selectedChannels :=
        s.selectedChannels.filter (fun channel => channel.channelId ≠ channelId) }

/-! ## Thumbnail rendering

The render sites use `channel.thumbnail.replace("//", "https://")`.  With a
string pattern, JavaScript `replace` rewrites only the FIRST occurrence, so
we model that (Lean's `String.replace` would rewrite all occurrences). -/

/-- Whether `pat` is an initial segment of `l`. -/
def listStartsWith : List Char → List Char → Bool
  | [], _ => true
  | _ :: _, [] => false
  | p :: ps, c :: cs => p = c && listStartsWith ps cs

/-- Replace the first occurrence of `pat` (assumed non-empty at call sites)
by `repl` in a character list; identity when `pat` does not occur. -/
def replaceFirstList (pat repl : List Char) : List Char → List Char
  | [] => []
  | c :: cs =>
      if listStartsWith pat (c :: cs) then repl ++ (c :: cs).drop pat.length
      else c :: replaceFirstList pat repl cs

/-- JavaScript `s.replace(pat, repl)` with a string pattern: first
occurrence only. -/
def jsReplaceFirst (s pat repl : String) : String :=
  ⟨replaceFirstList pat.data repl.data s.data⟩

/-- The thumbnail URL the dashboard renders for a channel:
`channel.thumbnail.replace("//", "https://")`. -/
def renderedThumbnail (channel : Channel) : String :=
  jsReplaceFirst channel.thumbnail "//" "https://"

/-! ## Debounce (`useDebounce`)

`useDebounce` schedules `setDebouncedValue(value)` after `delay` ms on each
change of `value`, and the effect cleanup cancels the still-pending timer
when the value changes again first.  We model a run as the list of input
events `(time, value)` and compute the values whose timer actually fires: an
event's timer fires iff no further event arrives before its deadline
(deadline = event time + delay); the last event's timer always fires. -/

/-- Values propagated downstream by the trailing debounce for a given event
trace (times assumed non-decreasing along the trace). -/
def debounceFired (delay : Nat) : List (Nat × String) → List String
  | [] => []
  | [e] => [e.2]
  | e :: f :: rest =>
      if e.1 + delay ≤ f.1 then e.2 :: debounceFired delay (f :: rest)
      else debounceFired delay (f :: rest)

/-! ## Concrete fixtures -/

/-- The channel of the spec's simulated-success test:
`{channelId:"c1",name:"A",thumbnail:"//x/y.png",navigationEndpoint:"/c1"}`. -/
def c8Channel : Channel :=
  { channelId := "c1", name := "A", thumbnail := "//x/y.png", navigationEndpoint := "/c1" }

/-- A selected channel with id `c1`. -/
def ch1 : Channel :=
  { channelId := "c1", name := "First", thumbnail := "t1", navigationEndpoint := "/c1" }

/-- A selected channel with id `c2`. -/
def ch2 : Channel :=
  { channelId := "c2", name := "Second", thumbnail := "t2", navigationEndpoint := "/c2" }

/-- A dashboard state whose selection list holds `ch1` then `ch2`. -/
def selState : DashState :=
  { initialDashState with selectedChannels := [ch1, ch2] }

/-! ## Theorems -/

/-- C1, counterexample: when the logout fetch rejects (transport failure),
the `catch` only logs — starting from an authenticated state with no
navigations, the flag is NOT forced to `false` and no navigation to the
landing screen is issued, contradicting the claim that this happens
regardless of the request's outcome. -/
theorem logout_transport_failure_counterexample :
    ¬ ((logout LogoutFetch.networkError
          { isAuthenticated := true, navigations := [] }).isAuthenticated = false
       ∨ "/" ∈ (logout LogoutFetch.networkError
          { isAuthenticated := true, navigations := [] }).navigations) := by
  decide

/-- C1, amended: whenever the logout fetch resolves (any HTTP status —
success or non-2xx, since the response is never inspected), the auth state
is forced to unauthenticated and a navigation to the landing screen `/` is
appended; when the fetch rejects (transport failure), the error is only
logged and the state, including the navigation log, is left unchanged. -/
theorem logout_spec (s : AuthState) :
    (∀ status, logout (LogoutFetch.resolved status) s =
      { s with isAuthenticated := false, navigations := s.navigations ++ ["/"] })
    ∧ logout LogoutFetch.networkError s = s :=
  ⟨fun _ => rfl, rfl⟩

/-- C2, counterexample: a 2xx response whose body fails to decode does NOT
escape as an uncaught rejection — `response.json()` is awaited inside the
`try`, so the decode failure is converted into the fixed user-facing error
message with the results cleared, exactly like other failures. -/
theorem decode_failure_counterexample :
    (fetchChannels "q" (SearchFetch.response 200 none) initialDashState).1.error
        = some fetchErrorMsg
    ∧ (fetchChannels "q" (SearchFetch.response 200 none) initialDashState).1.searchResults
        = [] := by
  decide

/-- C2, amended: for every non-empty query, a 2xx response whose body fails
to decode as JSON is handled by the same `catch` as network and non-2xx
failures: the resulting state and request count are identical to the
transport-failure case, and the error field holds the fixed message. -/
theorem decode_failure_caught (query : String) (hq : query ≠ "") (status : Nat)
    (hok : responseOk status = true) (s : DashState) :
    fetchChannels query (SearchFetch.response status none) s
        = fetchChannels query SearchFetch.networkError s
    ∧ (fetchChannels query (SearchFetch.response status none) s).1.error
        = some fetchErrorMsg := by
  unfold fetchChannels
  simp [hq, hok]

/-- Witness for C2's amended theorem at query `"q"`, status 200, the
initial dashboard state. -/
theorem decode_failure_caught_witness :
    fetchChannels "q" (SearchFetch.response 200 none) initialDashState
        = fetchChannels "q" SearchFetch.networkError initialDashState
    ∧ (fetchChannels "q" (SearchFetch.response 200 none) initialDashState).1.error
        = some fetchErrorMsg :=
  decode_failure_caught "q" (by decide) 200 (by decide) initialDashState

/-- C3: searching with the empty query clears the result set, closes the
dropdown, and issues zero network requests, whatever the environment would
have answered and whatever the prior state. -/
theorem search_empty_query (outcome : SearchFetch) (s : DashState) :
    (fetchChannels "" outcome s).1.searchResults = []
    ∧ (fetchChannels "" outcome s).1.isDropdownOpen = false
    ∧ (fetchChannels "" outcome s).2 = 0 :=
  ⟨rfl, rfl, rfl⟩

/-- C4: for every non-empty query, a failed request (transport failure or
non-2xx status) sets the error field to the fixed user-facing message and
clears the result set; and on every completion of the search — success or
failure alike — the loading flag ends up `false`. -/
theorem search_failure_spec (query : String) (hq : query ≠ "") (outcome : SearchFetch)
    (s : DashState)
    (hfail : outcome = SearchFetch.networkError
      ∨ ∃ status decoded, outcome = SearchFetch.response status decoded
          ∧ responseOk status = false) :
    (fetchChannels query outcome s).1.error = some fetchErrorMsg
    ∧ (fetchChannels query outcome s).1.searchResults = []
    ∧ ∀ outcome2 : SearchFetch, (fetchChannels query outcome2 s).1.isLoading = false := by
  refine ⟨?_, ?_, ?_⟩
  · rcases hfail with rfl | ⟨status, decoded, rfl, hbad⟩
    · simp [fetchChannels, hq]
    · simp [fetchChannels, hq, hbad]
  · rcases hfail with rfl | ⟨status, decoded, rfl, hbad⟩
    · simp [fetchChannels, hq]
    · simp [fetchChannels, hq, hbad]
  · intro outcome2
    cases outcome2 with
    | networkError => simp [fetchChannels, hq]
    | response status decoded =>
        cases hok : responseOk status with
        | true => cases decoded <;> simp [fetchChannels, hq, hok]
        | false => simp [fetchChannels, hq, hok]

/-- Witness for C4 at query `"q"`, a simulated HTTP 500 response, the
initial dashboard state. -/
theorem search_failure_spec_witness :
    (fetchChannels "q" (SearchFetch.response 500 none) initialDashState).1.error
        = some fetchErrorMsg
    ∧ (fetchChannels "q" (SearchFetch.response 500 none) initialDashState).1.searchResults
        = []
    ∧ (fetchChannels "q" (SearchFetch.response 500 none) initialDashState).1.isLoading
        = false := by
  have h := search_failure_spec "q" (by decide) (SearchFetch.response 500 none)
    initialDashState (Or.inr ⟨500, none, rfl, by decide⟩)
  exact ⟨h.1, h.2.1, h.2.2 (SearchFetch.response 500 none)⟩

/-- C5: the auth flag starts `false` at mount, and the startup auth check
sets it `true` exactly when the fetch resolved with an OK (2xx) status;
every other outcome — non-OK status or transport failure — sets it
`false`. -/
theorem auth_check_spec (outcome : AuthFetch) (s : AuthState) :
    initialAuthState.isAuthenticated = false
    ∧ ((checkAuthStatus outcome s).isAuthenticated = true
        ↔ ∃ status, outcome = AuthFetch.response status ∧ responseOk status = true) := by
  refine ⟨rfl, ?_⟩
  cases outcome with
  | networkError => simp [checkAuthStatus]
  | response status => cases hok : responseOk status <;> simp [checkAuthStatus, hok]

/-- C6: selecting a search result appends the channel unconditionally to
the end of the selection list (selecting it twice yields two entries),
clears the query text, closes the dropdown, and leaves the results and
error fields untouched. -/
theorem select_spec (channel : Channel) (s : DashState) :
    (handleSelectChannel channel s).selectedChannels = s.selectedChannels ++ [channel]
    ∧ (handleSelectChannel channel s).searchQuery = ""
    ∧ (handleSelectChannel channel s).isDropdownOpen = false
    ∧ (handleSelectChannel channel (handleSelectChannel channel s)).selectedChannels
        = s.selectedChannels ++ [channel, channel]
    ∧ (handleSelectChannel channel s).searchResults = s.searchResults
    ∧ (handleSelectChannel channel s).error = s.error := by
  refine ⟨rfl, rfl, rfl, ?_, rfl, rfl⟩
  simp [handleSelectChannel]

/-- C7: removing a channel id keeps exactly the entries with a different
id, in order (a sublist of the original); the operation is idempotent, and
a no-op when the id is absent. -/
theorem remove_spec (s : DashState) (cid : String) :
    (∀ c ∈ (handleRemoveChannel cid s).selectedChannels, c.channelId ≠ cid)
    ∧ (∀ c, c ∈ (handleRemoveChannel cid s).selectedChannels
        ↔ c ∈ s.selectedChannels ∧ c.channelId ≠ cid)
    ∧ List.Sublist (handleRemoveChannel cid s).selectedChannels s.selectedChannels
    ∧ handleRemoveChannel cid (handleRemoveChannel cid s) = handleRemoveChannel cid s
    ∧ ((∀ c ∈ s.selectedChannels, c.channelId ≠ cid) → handleRemoveChannel cid s = s) := by
  refine ⟨?_, ?_, ?_, ?_, ?_⟩
  · intro c hc
    simpa using (List.mem_filter.mp hc).2
  · intro c
    simp [handleRemoveChannel, List.mem_filter]
  · exact List.filter_sublist _
  · simp [handleRemoveChannel, List.filter_filter]
  · intro h
    have hf : s.selectedChannels.filter (fun c => c.channelId ≠ cid) = s.selectedChannels :=
      List.filter_eq_self.mpr (fun a ha => by simpa using h a ha)
    simp only [handleRemoveChannel, hf]

/-- Witness for C7 at the selection list `[ch1, ch2]`: removing `"c1"`
leaves `[ch2]`, removing it again changes nothing, and removing an absent
id is a no-op. -/
theorem remove_spec_witness :
    (handleRemoveChannel "c1" selState).selectedChannels = [ch2]
    ∧ handleRemoveChannel "c1" (handleRemoveChannel "c1" selState)
        = handleRemoveChannel "c1" selState
    ∧ handleRemoveChannel "zz" selState = selState :=
  ⟨by decide, (remove_spec selState "c1").2.2.2.1,
    (remove_spec selState "zz").2.2.2.2 (by decide)⟩

/-- C8: for every non-empty query, a successful (HTTP 200) response
decoding to the single channel `c8Channel` sets the results to exactly that
one-element list and opens the dropdown; and the thumbnail URL rendered for
that channel is `https://x/y.png` — the protocol-relative `//` prefix
replaced by the secure scheme. -/
theorem search_success_c8 (query : String) (hq : query ≠ "") (s : DashState) :
    (fetchChannels query (SearchFetch.response 200 (some [c8Channel])) s).1.searchResults
        = [c8Channel]
    ∧ (fetchChannels query (SearchFetch.response 200 (some [c8Channel])) s).1.isDropdownOpen
        = true
    ∧ renderedThumbnail c8Channel = "https://x/y.png" := by
  have hok : responseOk 200 = true := by decide
  refine ⟨?_, ?_, by decide⟩ <;> simp [fetchChannels, hq, hok]

/-- Witness for C8 at query `"q"` and the initial dashboard state. -/
theorem search_success_c8_witness :
    (fetchChannels "q" (SearchFetch.response 200 (some [c8Channel]))
        initialDashState).1.searchResults = [c8Channel]
    ∧ (fetchChannels "q" (SearchFetch.response 200 (some [c8Channel]))
        initialDashState).1.isDropdownOpen = true
    ∧ renderedThumbnail c8Channel = "https://x/y.png" :=
  search_success_c8 "q" (by decide) initialDashState

/-- C9: when every input event is superseded after strictly less than the
debounce delay, each pending timer is cancelled before firing, so no value
except the last is ever propagated downstream — the debounced output trace
is exactly the singleton of the last value. -/
theorem debounce_last_only (delay : Nat) :
    ∀ (events : List (Nat × String)) (hne : events ≠ [])
      (_hfast : List.Chain' (fun a b => b.1 < a.1 + delay) events),
      debounceFired delay events = [(events.getLast hne).2]
  | [], hne, _ => absurd rfl hne
  | [_], _, _ => rfl
  | e :: f :: rest, _, hfast => by
      have h1 : f.1 < e.1 + delay := (List.chain'_cons.mp hfast).1
      have h2 : List.Chain' (fun a b => b.1 < a.1 + delay) (f :: rest) :=
        (List.chain'_cons.mp hfast).2
      have hle : ¬ e.1 + delay ≤ f.1 := Nat.not_le.mpr h1
      have ht : debounceFired delay (e :: f :: rest) = debounceFired delay (f :: rest) := by
        simp [debounceFired, hle]
      rw [ht, debounce_last_only delay (f :: rest) (List.cons_ne_nil f rest) h2,
        List.getLast_cons (List.cons_ne_nil f rest)]

/-- Witness for C9: three keystrokes 100 ms apart under a 300 ms debounce
propagate only the final value. -/
theorem debounce_last_only_witness :
    debounceFired 300 [(0, "a"), (100, "ab"), (200, "abc")] = ["abc"] :=
  (debounce_last_only 300 [(0, "a"), (100, "ab"), (200, "abc")]
    (by decide) (by norm_num [List.chain'_cons])).trans rfl

/-- C10 (frame): the empty-query branch of the search modifies only the
result set and the dropdown flag; the error message, the loading flag, the
selection list, the query text and the list name are all left unchanged. -/
theorem search_empty_frame (outcome : SearchFetch) (s : DashState) :
    (fetchChannels "" outcome s).1.error = s.error
    ∧ (fetchChannels "" outcome s).1.isLoading = s.isLoading
    ∧ (fetchChannels "" outcome s).1.selectedChannels = s.selectedChannels
    ∧ (fetchChannels "" outcome s).1.searchQuery = s.searchQuery
    ∧ (fetchChannels "" outcome s).1.listName = s.listName
    ∧ (fetchChannels "" outcome s).1.searchResults = []
    ∧ (fetchChannels "" outcome s).1.isDropdownOpen = false :=
  ⟨rfl, rfl, rfl, rfl, rfl, rfl, rfl⟩
